import Mathlib

/-!
Verification of the wound-care encounter manager (src/src/manager.py,
src/src/models.py, src/src/parser.py) against its specification.

The Python code is shallowly embedded:
  * JSON documents (the output of pydantic `model_dump` and the input of
    `jsonpatch`) are the inductive type `Json`; Python dicts are ordered
    association lists, as Python dicts preserve insertion order.
  * The `jsonpatch` library (RFC-6902 operations over JSON pointers) is
    embedded operation by operation following jsonpatch.py: `add`, `remove`,
    `replace`, `move`, `copy`, `test`; any failure is an `Except.error`,
    matching an uncaught Python exception.
  * The pydantic models `PatientInformation`, `WoundDetails` and
    `EncounterState` are Lean structures; `model_dump` and `model_validate`
    are explicit functions between the structures and `Json`.
  * Wall-clock time (`datetime.now()`) is passed in explicitly as an integer
    `now`; the external LLM extractor (`ClinicalParser`) is nondeterministic,
    so its outcome is passed in as an explicit parameter.
  * The persistent store (one JSON file per appointment id, plus the optional
    S3 mirror) is a single association list from id to state; `save_state`
    and `load_state` operate on it.  Serialization to text is not modelled:
    the store holds the validated state value.
-/

namespace WoundCare

/-- A JSON document.  Objects are ordered association lists (Python dicts
preserve insertion order); numbers are integers, which covers every number
the embedded code produces. -/
inductive Json where
  | null
  | bool (b : Bool)
  | num (n : Int)
  | str (s : String)
  | arr (xs : List Json)
  | obj (fields : List (String × Json))

namespace Json

mutual

/-- Structural equality test on JSON documents, recursing through the two
nested list positions (no deriving handler applies to a nested inductive,
so the decision procedure is spelled out). -/
def jeq : Json → Json → Bool
  | null, null => true
  | bool x, bool y => x == y
  | num x, num y => x == y
  | str x, str y => x == y
  | arr xs, arr ys => jeqArr xs ys
  | obj xs, obj ys => jeqObj xs ys
  | _, _ => false

def jeqArr : List Json → List Json → Bool
  | [], [] => true
  | x :: xs, y :: ys => jeq x y && jeqArr xs ys
  | _, _ => false

def jeqObj : List (String × Json) → List (String × Json) → Bool
  | [], [] => true
  | kv :: xs, lw :: ys => kv.1 == lw.1 && jeq kv.2 lw.2 && jeqObj xs ys
  | _, _ => false

end

mutual

theorem jeq_correct : ∀ a b : Json, jeq a b = true ↔ a = b
  | a, b => by
    cases a <;> cases b <;> simp [jeq]
    · exact jeqArr_correct _ _
    · exact jeqObj_correct _ _

theorem jeqArr_correct : ∀ xs ys : List Json, jeqArr xs ys = true ↔ xs = ys
  | [], [] => by simp [jeqArr]
  | [], _ :: _ => by simp [jeqArr]
  | _ :: _, [] => by simp [jeqArr]
  | x :: xs, y :: ys => by
    have h1 := jeq_correct x y
    have h2 := jeqArr_correct xs ys
    simp [jeqArr, h1, h2]

theorem jeqObj_correct :
    ∀ xs ys : List (String × Json), jeqObj xs ys = true ↔ xs = ys
  | [], [] => by simp [jeqObj]
  | [], _ :: _ => by simp [jeqObj]
  | _ :: _, [] => by simp [jeqObj]
  | kv :: xs, lw :: ys => by
    have h1 := jeq_correct kv.2 lw.2
    have h2 := jeqObj_correct xs ys
    cases kv
    cases lw
    simp [jeqObj, h1, h2, and_assoc]

end

instance : DecidableEq Json := fun a b =>
  decidable_of_iff (jeq a b = true) (jeq_correct a b)

end Json

/-- First-occurrence lookup in a JSON object, i.e. Python `d[k]` / `d.get(k)`
(keys of dicts produced by the embedded code are unique). -/
def objGet (fs : List (String × Json)) (k : String) : Option Json :=
  match fs with
  | [] => none
  | (l, v) :: rest => if l = k then some v else objGet rest k

/-- Python `k in d`. -/
def objHas (fs : List (String × Json)) (k : String) : Bool :=
  (objGet fs k).isSome

/-- Python `d[k] = v`: replace the value in place if the key exists (a Python
dict keeps the key's position), otherwise append the new pair. -/
def objSet (fs : List (String × Json)) (k : String) (v : Json) :
    List (String × Json) :=
  match fs with
  | [] => [(k, v)]
  | (l, w) :: rest => if l = k then (l, v) :: rest else (l, w) :: objSet rest k v

/-- Python `del d[k]` (the key is assumed present; removes its first
occurrence). -/
def objDel (fs : List (String × Json)) (k : String) : List (String × Json) :=
  match fs with
  | [] => []
  | (l, w) :: rest => if l = k then rest else (l, w) :: objDel rest k

/-- Split a character list on a separator, Python `str.split` style: the
empty input yields one empty piece, and a trailing separator yields a
trailing empty piece. -/
def splitChars (sep : Char) : List Char → List (List Char)
  | [] => [[]]
  | c :: cs =>
    let rest := splitChars sep cs
    if c = sep then [] :: rest
    else
      match rest with
      | r :: rs => (c :: r) :: rs
      | [] => [[c]]

/-- Unescape one JSON-pointer token: `~1` becomes `/` and then `~0` becomes
`~` (jsonpointer.unescape); the single left-to-right pass is equivalent to
Python's two sequential `str.replace` calls because a produced character is
never re-examined. -/
def unescapeChars : List Char → List Char
  | '~' :: '1' :: rest => '/' :: unescapeChars rest
  | '~' :: '0' :: rest => '~' :: unescapeChars rest
  | c :: rest => c :: unescapeChars rest
  | [] => []

/-- Parse a JSON pointer into its token list (jsonpointer.JsonPointer):
the empty string is the root, otherwise the pointer must start with `/`. -/
def parsePointer (s : String) : Except String (List String) :=
  match s.data with
  | [] => .ok []
  | '/' :: rest =>
    .ok ((splitChars '/' rest).map (fun cs => String.mk (unescapeChars cs)))
  | _ => .error "JsonPointerException: location must start with /"

/-- Decimal digits to a number. -/
def digitsToNat (acc : Nat) : List Char → Option Nat
  | [] => some acc
  | c :: cs =>
    if c.isDigit then digitsToNat (acc * 10 + (c.toNat - '0'.toNat)) cs
    else none

/-- Array-index token: decimal digits (Python accepts leading zeros via
`int`); `-` is handled separately by each operation. -/
def parseIdx (t : String) : Option Nat :=
  match t.data with
  | [] => none
  | cs => digitsToNat 0 cs

/-- Python `int(s)` on a string: optional surrounding whitespace, optional
sign, at least one digit. -/
def pyStrToInt (s : String) : Option Int :=
  let digitsOf : List Char → Option Nat := fun cs =>
    if cs.isEmpty then none else digitsToNat 0 cs
  let cs := (s.data.dropWhile (fun c => c.isWhitespace)).reverse
  let cs := (cs.dropWhile (fun c => c.isWhitespace)).reverse
  match cs with
  | '-' :: rest => (digitsOf rest).map (fun n => -(n : Int))
  | '+' :: rest => (digitsOf rest).map (fun n => (n : Int))
  | rest => (digitsOf rest).map (fun n => (n : Int))

/-- Walk a pointer through a document (jsonpointer.walk / resolve): fails on
a missing member, an out-of-range index, the `-` end-of-list token, or an
attempt to walk into a scalar. -/
def jptrWalk (doc : Json) (tokens : List String) : Except String Json :=
  match tokens with
  | [] => .ok doc
  | t :: ts =>
    match doc with
    | .obj fs =>
      match objGet fs t with
      | some v => jptrWalk v ts
      | none => .error "JsonPointerException: member not found"
    | .arr xs =>
      if t = "-" then .error "JsonPointerException: end of list"
      else
        match parseIdx t with
        | some i =>
          match xs.get? i with
          | some v => jptrWalk v ts
          | none => .error "JsonPointerException: index out of range"
        | none => .error "JsonPointerException: invalid array index"
    | _ => .error "JsonPointerException: document is not a dict or list"

/-- jsonpatch `add`: on the root pointer the whole document is replaced
(only when the current document is a dict — on any other root jsonpatch.py
raises); on an object member the value is set; on an array, `-` appends and
an index up to the length inserts. -/
def jsonAdd (doc : Json) (tokens : List String) (v : Json) :
    Except String Json :=
  match tokens with
  | [] =>
    match doc with
    | .obj _ => .ok v
    | _ => .error "TypeError: cannot replace non-dict root"
  | [t] =>
    match doc with
    | .obj fs => .ok (.obj (objSet fs t v))
    | .arr xs =>
      if t = "-" then .ok (.arr (xs ++ [v]))
      else
        match parseIdx t with
        | some i =>
          if i ≤ xs.length then .ok (.arr (xs.insertIdx i v))
          else .error "JsonPatchConflict: can't insert outside of list"
        | none => .error "JsonPointerException: invalid array index"
    | _ => .error "JsonPatchConflict: unable to fully resolve json pointer"
  | t :: ts =>
    match doc with
    | .obj fs =>
      match objGet fs t with
      | some c =>
        match jsonAdd c ts v with
        | .ok c' => .ok (.obj (objSet fs t c'))
        | .error e => .error e
      | none => .error "JsonPointerException: member not found"
    | .arr xs =>
      if t = "-" then .error "JsonPointerException: end of list"
      else
        match parseIdx t with
        | some i =>
          match xs.get? i with
          | some c =>
            match jsonAdd c ts v with
            | .ok c' => .ok (.arr (xs.set i c'))
            | .error e => .error e
          | none => .error "JsonPointerException: index out of range"
        | none => .error "JsonPointerException: invalid array index"
    | _ => .error "JsonPointerException: document is not a dict or list"

/-- jsonpatch `remove`: the member or index must exist; the root cannot be
removed. -/
def jsonRemove (doc : Json) (tokens : List String) : Except String Json :=
  match tokens with
  | [] => .error "JsonPatchConflict: cannot remove the root"
  | [t] =>
    match doc with
    | .obj fs =>
      if objHas fs t then .ok (.obj (objDel fs t))
      else .error "JsonPatchConflict: can't remove a non-existent member"
    | .arr xs =>
      if t = "-" then .error "TypeError: list index must be an integer"
      else
        match parseIdx t with
        | some i =>
          if i < xs.length then .ok (.arr (xs.eraseIdx i))
          else .error "JsonPatchConflict: can't remove outside of list"
        | none => .error "JsonPointerException: invalid array index"
    | _ => .error "JsonPatchConflict: unable to fully resolve json pointer"
  | t :: ts =>
    match doc with
    | .obj fs =>
      match objGet fs t with
      | some c =>
        match jsonRemove c ts with
        | .ok c' => .ok (.obj (objSet fs t c'))
        | .error e => .error e
      | none => .error "JsonPointerException: member not found"
    | .arr xs =>
      if t = "-" then .error "JsonPointerException: end of list"
      else
        match parseIdx t with
        | some i =>
          match xs.get? i with
          | some c =>
            match jsonRemove c ts with
            | .ok c' => .ok (.arr (xs.set i c'))
            | .error e => .error e
          | none => .error "JsonPointerException: index out of range"
        | none => .error "JsonPointerException: invalid array index"
    | _ => .error "JsonPointerException: document is not a dict or list"

/-- jsonpatch `replace`: the root pointer yields the new value outright; a
member or index must already exist. -/
def jsonReplace (doc : Json) (tokens : List String) (v : Json) :
    Except String Json :=
  match tokens with
  | [] => .ok v
  | [t] =>
    match doc with
    | .obj fs =>
      if objHas fs t then .ok (.obj (objSet fs t v))
      else .error "JsonPatchConflict: can't replace a non-existent member"
    | .arr xs =>
      if t = "-" then .error "TypeError: list index must be an integer"
      else
        match parseIdx t with
        | some i =>
          if i < xs.length then .ok (.arr (xs.set i v))
          else .error "JsonPatchConflict: can't replace outside of list"
        | none => .error "JsonPointerException: invalid array index"
    | _ => .error "JsonPatchConflict: unable to fully resolve json pointer"
  | t :: ts =>
    match doc with
    | .obj fs =>
      match objGet fs t with
      | some c =>
        match jsonReplace c ts v with
        | .ok c' => .ok (.obj (objSet fs t c'))
        | .error e => .error e
      | none => .error "JsonPointerException: member not found"
    | .arr xs =>
      if t = "-" then .error "JsonPointerException: end of list"
      else
        match parseIdx t with
        | some i =>
          match xs.get? i with
          | some c =>
            match jsonReplace c ts v with
            | .ok c' => .ok (.arr (xs.set i c'))
            | .error e => .error e
          | none => .error "JsonPointerException: index out of range"
        | none => .error "JsonPointerException: invalid array index"
    | _ => .error "JsonPointerException: document is not a dict or list"

/-- jsonpatch `test`: the pointed-at value must equal the given value.
Python compares dicts key-order-insensitively; every object the modelled
code compares is produced in canonical dump order, so structural equality
coincides on the modelled paths. -/
def jsonTest (doc : Json) (tokens : List String) (v : Json) :
    Except String Json :=
  match jptrWalk doc tokens with
  | .ok found =>
    if Json.jeq found v then .ok doc
    else .error "JsonPatchTestFailed: test operation value mismatch"
  | .error e => .error e

/-- One jsonpatch operation (jsonpatch.PatchOperation and subclasses): the
operation must be a dict with a string `op` among the six RFC-6902 names and
a string `path`; `add`, `replace` and `test` require a `value` member;
`move` and `copy` require a string `from` pointer, which must exist, must
not be the root, and (for `move`) must not be a strict prefix of `path`. -/
def applyOp (doc : Json) (op : Json) : Except String Json :=
  match op with
  | .obj fs =>
    match objGet fs "op" with
    | some (.str o) =>
      match objGet fs "path" with
      | some (.str pathStr) =>
        match parsePointer pathStr with
        | .ok tokens =>
          if o = "add" then
            match objGet fs "value" with
            | some v => jsonAdd doc tokens v
            | none => .error "InvalidJsonPatch: no value member"
          else if o = "remove" then
            jsonRemove doc tokens
          else if o = "replace" then
            match objGet fs "value" with
            | some v => jsonReplace doc tokens v
            | none => .error "InvalidJsonPatch: no value member"
          else if o = "test" then
            match objGet fs "value" with
            | some v => jsonTest doc tokens v
            | none => .error "InvalidJsonPatch: no value member"
          else if o = "move" then
            match objGet fs "from" with
            | some (.str fromStr) =>
              match parsePointer fromStr with
              | .ok fromTokens =>
                if fromTokens = [] then
                  .error "JsonPatchConflict: cannot move from the root"
                else
                  match jptrWalk doc fromTokens with
                  | .ok v =>
                    if fromTokens <+: tokens ∧ fromTokens ≠ tokens then
                      .error "JsonPatchConflict: cannot move into own children"
                    else
                      match jsonRemove doc fromTokens with
                      | .ok doc' => jsonAdd doc' tokens v
                      | .error e => .error e
                  | .error e => .error e
              | .error e => .error e
            | _ => .error "InvalidJsonPatch: no from member"
          else if o = "copy" then
            match objGet fs "from" with
            | some (.str fromStr) =>
              match parsePointer fromStr with
              | .ok fromTokens =>
                if fromTokens = [] then
                  .error "JsonPatchConflict: cannot copy from the root"
                else
                  match jptrWalk doc fromTokens with
                  | .ok v => jsonAdd doc tokens v
                  | .error e => .error e
              | .error e => .error e
            | _ => .error "InvalidJsonPatch: no from member"
          else .error "InvalidJsonPatch: unknown operation"
        | .error e => .error e
      | _ => .error "InvalidJsonPatch: operation must have a path member"
    | _ => .error "InvalidJsonPatch: operation must have a string op member"
  | _ => .error "InvalidJsonPatch: operation is not a dict"

/-- jsonpatch.JsonPatch.apply: the operations are applied in sequence to a
copy of the document; the first failure aborts the whole batch. -/
def applyPatchBatch (patches : List Json) (doc : Json) : Except String Json :=
  match patches with
  | [] => .ok doc
  | p :: ps =>
    match applyOp doc p with
    | .ok doc' => applyPatchBatch ps doc'
    | .error e => .error e

/-- models.AppointmentStatus: the five lifecycle states with their literal
string values. -/
inductive AppointmentStatus where
  | booked
  | recordingSaved
  | sentToQA
  | qaCompleted
  | delivered
  deriving DecidableEq

/-- The string value of a status (models.py: `BOOKED = "Booked"` and so on). -/
def AppointmentStatus.value : AppointmentStatus → String
  | .booked => "Booked"
  | .recordingSaved => "Recording Saved"
  | .sentToQA => "Sent to QA"
  | .qaCompleted => "QA Completed"
  | .delivered => "Delivered"

/-- Parse a status string back into the enum (pydantic validation of a
`str`-valued enum field). -/
def statusFromStr (s : String) : Option AppointmentStatus :=
  if s = "Booked" then some .booked
  else if s = "Recording Saved" then some .recordingSaved
  else if s = "Sent to QA" then some .sentToQA
  else if s = "QA Completed" then some .qaCompleted
  else if s = "Delivered" then some .delivered
  else none

/-- models.PatientInformation: six optional string fields plus the open
extension map allowed by `extra = "allow"` (keys outside the canonical
field-and-alias set). -/
structure PatientInformation where
  patient_name : Option String := none
  dob : Option String := none
  date_of_service : Option String := none
  physician : Option String := none
  transcriptionist : Option String := none
  facility : Option String := none
  extra : List (String × Json) := []
  deriving DecidableEq

/-- The canonical Patient field names and their pydantic aliases — the keys
consumed by validation; everything else lands in the extension map. -/
def patientKeys : List String :=
  ["patient_name", "dob", "date_of_service", "physician", "transcriptionist",
   "facility", "Patient Name", "DOB", "Date of Service", "Physician/Extender",
   "Transcriptionist", "Facility"]

/-- models.WoundDetails: the required ordinal `number`, the 23 optional
string attributes in declaration order, the declared `attributes` map, and
the `extra = "allow"` extension map. -/
structure WoundDetails where
  number : String
  mist_therapy : Option String := none
  location : Option String := none
  outcome : Option String := none
  type : Option String := none
  status : Option String := none
  measurements : Option String := none
  area_sq_cm : Option String := none
  volume_cu_cm : Option String := none
  tunnels : Option String := none
  max_depth : Option String := none
  undermining : Option String := none
  stage_grade : Option String := none
  drainage : Option String := none
  exudate_type : Option String := none
  odor : Option String := none
  wound_margin : Option String := none
  periwound : Option String := none
  necrotic_material : Option String := none
  granulation : Option String := none
  tissue_exposed : Option String := none
  procedure : Option String := none
  clinical_summary : Option String := none
  treatment_plan : Option String := none
  attributes : List (String × Json) := []
  extra : List (String × Json) := []
  deriving DecidableEq

/-- The declared WoundDetails field names (no aliases). -/
def woundKeys : List String :=
  ["number", "mist_therapy", "location", "outcome", "type", "status",
   "measurements", "area_sq_cm", "volume_cu_cm", "tunnels", "max_depth",
   "undermining", "stage_grade", "drainage", "exudate_type", "odor",
   "wound_margin", "periwound", "necrotic_material", "granulation",
   "tissue_exposed", "procedure", "clinical_summary", "treatment_plan",
   "attributes"]

/-- models.EncounterState: the aggregate root.  Timestamps are integers (the
explicit clock of the embedding); `history` entries are raw JSON objects, as
in the source they are plain `Dict[str, Any]` that patches may reshape. -/
structure EncounterState where
  appointment_id : String
  encounter_id : String
  status : AppointmentStatus := .booked
  version : Int := 1
  created_at : Int
  updated_at : Int
  patient_information : PatientInformation := {}
  wounds : List WoundDetails := []
  provider_comments : Option String := some ""
  treatment_plan : Option String := some ""
  history : List Json := []
  deriving DecidableEq

/-- Dump an optional string as JSON (pydantic dumps `None` as JSON null). -/
def optStrJson : Option String → Json
  | none => .null
  | some s => .str s

/-- PatientInformation.model_dump: canonical fields by field name in
declaration order, then the extension map. -/
def dumpPatient (p : PatientInformation) : Json :=
  .obj ([("patient_name", optStrJson p.patient_name),
         ("dob", optStrJson p.dob),
         ("date_of_service", optStrJson p.date_of_service),
         ("physician", optStrJson p.physician),
         ("transcriptionist", optStrJson p.transcriptionist),
         ("facility", optStrJson p.facility)] ++ p.extra)

/-- WoundDetails.model_dump. -/
def dumpWound (w : WoundDetails) : Json :=
  .obj ([("number", .str w.number),
         ("mist_therapy", optStrJson w.mist_therapy),
         ("location", optStrJson w.location),
         ("outcome", optStrJson w.outcome),
         ("type", optStrJson w.type),
         ("status", optStrJson w.status),
         ("measurements", optStrJson w.measurements),
         ("area_sq_cm", optStrJson w.area_sq_cm),
         ("volume_cu_cm", optStrJson w.volume_cu_cm),
         ("tunnels", optStrJson w.tunnels),
         ("max_depth", optStrJson w.max_depth),
         ("undermining", optStrJson w.undermining),
         ("stage_grade", optStrJson w.stage_grade),
         ("drainage", optStrJson w.drainage),
         ("exudate_type", optStrJson w.exudate_type),
         ("odor", optStrJson w.odor),
         ("wound_margin", optStrJson w.wound_margin),
         ("periwound", optStrJson w.periwound),
         ("necrotic_material", optStrJson w.necrotic_material),
         ("granulation", optStrJson w.granulation),
         ("tissue_exposed", optStrJson w.tissue_exposed),
         ("procedure", optStrJson w.procedure),
         ("clinical_summary", optStrJson w.clinical_summary),
         ("treatment_plan", optStrJson w.treatment_plan),
         ("attributes", .obj w.attributes)] ++ w.extra)

/-- EncounterState.model_dump: all eleven fields in declaration order. -/
def model_dump (s : EncounterState) : Json :=
  .obj [("appointment_id", .str s.appointment_id),
        ("encounter_id", .str s.encounter_id),
        ("status", .str s.status.value),
        ("version", .num s.version),
        ("created_at", .num s.created_at),
        ("updated_at", .num s.updated_at),
        ("patient_information", dumpPatient s.patient_information),
        ("wounds", .arr (s.wounds.map dumpWound)),
        ("provider_comments", optStrJson s.provider_comments),
        ("treatment_plan", optStrJson s.treatment_plan),
        ("history", .arr s.history)]

/-- Decode one `Optional[str]` field value: absent gives the `None` default,
JSON null gives `None`, a string gives the string, anything else fails
validation. -/
def decodeOptStr : Option Json → Except String (Option String)
  | none => .ok none
  | some .null => .ok none
  | some (.str s) => .ok (some s)
  | some _ => .error "ValidationError: string expected"

/-- Read one `Optional[str]` field, looking up the alias first and then the
field name (pydantic `populate_by_name`). -/
def readOptStr (fs : List (String × Json)) (ali nam : String) :
    Except String (Option String) :=
  decodeOptStr ((objGet fs ali).orElse (fun _ => objGet fs nam))

/-- PatientInformation.model_validate (also `PatientInformation(**d)`). -/
def validatePatient (j : Json) : Except String PatientInformation :=
  match j with
  | .obj fs => do
    let pn ← readOptStr fs "Patient Name" "patient_name"
    let db ← readOptStr fs "DOB" "dob"
    let ds ← readOptStr fs "Date of Service" "date_of_service"
    let ph ← readOptStr fs "Physician/Extender" "physician"
    let tr ← readOptStr fs "Transcriptionist" "transcriptionist"
    let fa ← readOptStr fs "Facility" "facility"
    .ok ⟨pn, db, ds, ph, tr, fa, fs.filter (fun kv => !(patientKeys.contains kv.1))⟩
  | _ => .error "ValidationError: dict expected for PatientInformation"

/-- WoundDetails.model_validate (also `WoundDetails(**w)`): `number` is
required and must be a string; the other canonical fields are optional
strings; `attributes` must be a dict when present; unknown keys are kept as
extras. -/
def validateWound (j : Json) : Except String WoundDetails :=
  match j with
  | .obj fs => do
    let number ←
      match objGet fs "number" with
      | some (.str s) => Except.ok s
      | some _ => Except.error "ValidationError: number must be a string"
      | none => Except.error "ValidationError: number is required"
    let mist_therapy ← readOptStr fs "mist_therapy" "mist_therapy"
    let location ← readOptStr fs "location" "location"
    let outcome ← readOptStr fs "outcome" "outcome"
    let type ← readOptStr fs "type" "type"
    let status ← readOptStr fs "status" "status"
    let measurements ← readOptStr fs "measurements" "measurements"
    let area_sq_cm ← readOptStr fs "area_sq_cm" "area_sq_cm"
    let volume_cu_cm ← readOptStr fs "volume_cu_cm" "volume_cu_cm"
    let tunnels ← readOptStr fs "tunnels" "tunnels"
    let max_depth ← readOptStr fs "max_depth" "max_depth"
    let undermining ← readOptStr fs "undermining" "undermining"
    let stage_grade ← readOptStr fs "stage_grade" "stage_grade"
    let drainage ← readOptStr fs "drainage" "drainage"
    let exudate_type ← readOptStr fs "exudate_type" "exudate_type"
    let odor ← readOptStr fs "odor" "odor"
    let wound_margin ← readOptStr fs "wound_margin" "wound_margin"
    let periwound ← readOptStr fs "periwound" "periwound"
    let necrotic_material ← readOptStr fs "necrotic_material" "necrotic_material"
    let granulation ← readOptStr fs "granulation" "granulation"
    let tissue_exposed ← readOptStr fs "tissue_exposed" "tissue_exposed"
    let procedure ← readOptStr fs "procedure" "procedure"
    let clinical_summary ← readOptStr fs "clinical_summary" "clinical_summary"
    let treatment_plan ← readOptStr fs "treatment_plan" "treatment_plan"
    let attrs ←
      match objGet fs "attributes" with
      | none => Except.ok ([] : List (String × Json))
      | some (.obj afs) => Except.ok afs
      | some _ => Except.error "ValidationError: attributes must be a dict"
    .ok ⟨number, mist_therapy, location, outcome, type, status, measurements,
         area_sq_cm, volume_cu_cm, tunnels, max_depth, undermining,
         stage_grade, drainage, exudate_type, odor, wound_margin, periwound,
         necrotic_material, granulation, tissue_exposed, procedure,
         clinical_summary, treatment_plan, attrs,
         fs.filter (fun kv => !(woundKeys.contains kv.1))⟩
  | _ => .error "ValidationError: dict expected for WoundDetails"

/-- Validate a list of wound payloads in order, stopping at the first
failure (the Python list comprehension `[WoundDetails(**w) for w in ...]`). -/
def validateWounds : List Json → Except String (List WoundDetails)
  | [] => .ok []
  | x :: xs => do
    let w ← validateWound x
    let ws ← validateWounds xs
    .ok (w :: ws)

/-- Validate the history payload: each entry must be a dict
(`List[Dict[str, Any]]`); entries are otherwise kept verbatim. -/
def validateHistory : List Json → Except String (List Json)
  | [] => .ok []
  | e :: rest =>
    match e with
    | .obj _ => do
      let h ← validateHistory rest
      .ok (e :: h)
    | _ => .error "ValidationError: history entries must be dicts"

/-- EncounterState.model_validate.  Defaults follow models.py (`version = 1`,
comments and plan default to the empty string, missing collections default to
empty); the `default_factory` uuid and clock values, which are fresh
nondeterministic values in Python and never inspected by any claim, are
modelled as fixed placeholders.  Unknown top-level keys are ignored, as
`EncounterState` declares no extra policy (pydantic default `ignore`).
`history` must be a list of dicts (`List[Dict[str, Any]]`). -/
def model_validate (j : Json) : Except String EncounterState :=
  match j with
  | .obj fs => do
    let appointment_id ←
      match objGet fs "appointment_id" with
      | none => Except.ok "fresh-uuid"
      | some (.str s) => Except.ok s
      | some _ => Except.error "ValidationError: appointment_id must be a string"
    let encounter_id ←
      match objGet fs "encounter_id" with
      | none => Except.ok "fresh-uuid"
      | some (.str s) => Except.ok s
      | some _ => Except.error "ValidationError: encounter_id must be a string"
    let status ←
      match objGet fs "status" with
      | none => Except.ok AppointmentStatus.booked
      | some (.str s) =>
        match statusFromStr s with
        | some st => Except.ok st
        | none => Except.error "ValidationError: invalid status"
      | some _ => Except.error "ValidationError: status must be a string"
    let version ←
      match objGet fs "version" with
      | none => Except.ok (1 : Int)
      | some (.num n) => Except.ok n
      | some (.str s) =>
        match pyStrToInt s with
        | some n => Except.ok n
        | none => Except.error "ValidationError: version must be an integer"
      | some _ => Except.error "ValidationError: version must be an integer"
    let created_at ←
      match objGet fs "created_at" with
      | none => Except.ok (0 : Int)
      | some (.num n) => Except.ok n
      | some _ => Except.error "ValidationError: created_at must be a datetime"
    let updated_at ←
      match objGet fs "updated_at" with
      | none => Except.ok (0 : Int)
      | some (.num n) => Except.ok n
      | some _ => Except.error "ValidationError: updated_at must be a datetime"
    let patient_information ←
      match objGet fs "patient_information" with
      | none => Except.ok ({} : PatientInformation)
      | some v => validatePatient v
    let wounds ←
      match objGet fs "wounds" with
      | none => Except.ok ([] : List WoundDetails)
      | some (.arr xs) => validateWounds xs
      | some _ => Except.error "ValidationError: wounds must be a list"
    let provider_comments ←
      match objGet fs "provider_comments" with
      | none => Except.ok (some "")
      | some .null => Except.ok (none : Option String)
      | some (.str s) => Except.ok (some s)
      | some _ => Except.error "ValidationError: provider_comments must be a string"
    let treatment_plan ←
      match objGet fs "treatment_plan" with
      | none => Except.ok (some "")
      | some .null => Except.ok (none : Option String)
      | some (.str s) => Except.ok (some s)
      | some _ => Except.error "ValidationError: treatment_plan must be a string"
    let history ←
      match objGet fs "history" with
      | none => Except.ok ([] : List Json)
      | some (.arr xs) => validateHistory xs
      | some _ => Except.error "ValidationError: history must be a list"
    .ok ⟨appointment_id, encounter_id, status, version, created_at, updated_at,
         patient_information, wounds, provider_comments, treatment_plan,
         history⟩
  | _ => .error "ValidationError: dict expected for EncounterState"

/-- One tier of the persistent store: a directory of JSON chart files keyed
by appointment id (the local `storage_dir`, or the `woundcare/chart/`
prefix of the S3 bucket).  Serialization is not modelled: a tier holds the
validated state value that the file's JSON round-trips to. -/
abbrev Store : Type := List (String × EncounterState)

/-- Look up the file for an appointment id. -/
def storeGet (store : Store) (aid : String) : Option EncounterState :=
  match store with
  | [] => none
  | (k, s) :: rest => if k = aid then some s else storeGet rest aid

/-- Write the file for an appointment id (overwrite in place or create). -/
def storePut (store : Store) (aid : String) (s : EncounterState) : Store :=
  match store with
  | [] => [(aid, s)]
  | (k, t) :: rest =>
    if k = aid then (k, s) :: rest else (k, t) :: storePut rest aid s

/-- Remove the file for an appointment id (`os.remove`). -/
def storeDel (store : Store) (aid : String) : Store :=
  store.filter (fun kv => kv.1 ≠ aid)

/-- EncounterManager.save_state: stamp `updated_at` with the current instant,
then write the state under its own `appointment_id` (locally, and through to
the S3 chart mirror when one is configured).  `save_state` writes through
and `load_state` fills on a miss, so on every path other than deletion the
two tiers agree on a record once it is read or written; the mutation
operations are therefore modelled over the single agreeing store, while
deletion and listing — where the tiers genuinely diverge — are modelled over
both tiers below (`TieredStore`). -/
def save_state (store : Store) (s : EncounterState) (now : Int) :
    EncounterState × Store :=
  let s' := { s with updated_at := now }
  (s', storePut store s'.appointment_id s')

/-- EncounterManager.load_state, collapsed over agreeing tiers: read and
validate the stored record, or fail with FileNotFoundError. -/
def load_state (store : Store) (aid : String) : Except String EncounterState :=
  match storeGet store aid with
  | some s => .ok s
  | none => .error "FileNotFoundError: appointment not found"

/-- EncounterManager.create_appointment: a fresh `Booked` encounter at
version 1 with empty wounds and history, persisted at once.  The uuids and
the clock are nondeterministic in Python and passed explicitly here. -/
def create_appointment (store : Store) (req : PatientInformation)
    (aid eid : String) (now : Int) : EncounterState × Store :=
  let s : EncounterState :=
    { appointment_id := aid, encounter_id := eid, status := .booked,
      version := 1, created_at := now, updated_at := now,
      patient_information := req, wounds := [], provider_comments := some "",
      treatment_plan := some "", history := [] }
  save_state store s now

/-- Sorting relation of list_appointments: creation time descending. -/
def createdDesc (a b : EncounterState) : Prop := b.created_at ≤ a.created_at

instance : DecidableRel createdDesc := fun a b => Int.decLe b.created_at a.created_at

/-- The two-tier persistent store: the local data directory plus the S3
chart mirror (`woundcare/chart/{id}.json`), which is `none` when
S3_BUCKET_NAME is unset and no client is built.  Deletion removes only the
local file and never the chart object, and listing re-syncs missing local
files from the mirror, so deletion and listing must see both tiers. -/
structure TieredStore where
  localDir : Store
  s3chart : Option Store
  deriving DecidableEq

namespace Tiered

/-- EncounterManager.load_state over both tiers: a local hit reads the
file; on a local miss the chart object, when the mirror is configured and
holds it, is downloaded into the local directory (`_download_from_s3`
writes `local_path` before the file is read back) and validated; otherwise
the call fails with FileNotFoundError. -/
def load_state (ts : TieredStore) (aid : String) :
    Except String EncounterState × TieredStore :=
  match storeGet ts.localDir aid with
  | some s => (.ok s, ts)
  | none =>
    match ts.s3chart with
    | some chart =>
      match storeGet chart aid with
      | some s => (.ok s, { ts with localDir := storePut ts.localDir aid s })
      | none => (.error "FileNotFoundError: appointment not found", ts)
    | none => (.error "FileNotFoundError: appointment not found", ts)

/-- The sync loop of list_appointments (manager.py lines 68-81): every
chart object whose file is missing locally is downloaded into the local
directory; files already present locally are kept as they are. -/
def syncChart (loc : Store) : Store → Store
  | [] => loc
  | (k, s) :: rest =>
    if storeGet loc k = none then syncChart (storePut loc k s) rest
    else syncChart loc rest

/-- EncounterManager.list_appointments: sync the local directory from the
chart mirror when one is configured, then scrape the local directory and
sort by creation time, newest first (`sorted(..., reverse=True)` is stable,
as is insertion sort). -/
def list_appointments (ts : TieredStore) :
    List EncounterState × TieredStore :=
  let loc :=
    match ts.s3chart with
    | none => ts.localDir
    | some chart => syncChart ts.localDir chart
  (List.insertionSort createdDesc (loc.map Prod.snd),
   { ts with localDir := loc })

/-- EncounterManager.delete_appointment: load the record (possibly filling
the local tier from the mirror), reject with a ValueError unless the status
is Booked, then remove the local .json (and .docx) — the S3 chart object is
never deleted. -/
def delete_appointment (ts : TieredStore) (aid : String) :
    Except String Unit × TieredStore :=
  match load_state ts aid with
  | (.error e, ts1) => (.error e, ts1)
  | (.ok s, ts1) =>
    if s.status = .booked then
      (.ok (), { ts1 with localDir := storeDel ts1.localDir aid })
    else
      (.error "ValueError: cannot delete once a clinical record exists", ts1)

end Tiered

/-- The full snapshot stored inside every history entry (manager.py builds
this dict inline in create_from_transcript and apply_addendum). -/
def dumpSnapshot (s : EncounterState) : Json :=
  .obj [("patient_info", dumpPatient s.patient_information),
        ("wounds", .arr (s.wounds.map dumpWound)),
        ("provider_comments", optStrJson s.provider_comments),
        ("treatment_plan", optStrJson s.treatment_plan),
        ("status", .str s.status.value)]

/-- The history entry appended by create_from_transcript.  The isoformat
timestamp string is the printed clock value. -/
def initialEntry (now : Int) (transcript : String) (s : EncounterState) : Json :=
  .obj [("timestamp", .str (toString now)),
        ("type", .str "initial_dictation"),
        ("transcript", .str transcript),
        ("version", .num s.version),
        ("snapshot", dumpSnapshot s)]

/-- The history entry appended by apply_addendum: additionally carries the
literal patch operations. -/
def addendumEntry (now : Int) (transcript : String) (patches : List Json)
    (s : EncounterState) : Json :=
  .obj [("timestamp", .str (toString now)),
        ("type", .str "addendum"),
        ("transcript", .str transcript),
        ("patches", .arr patches),
        ("version", .num s.version),
        ("snapshot", dumpSnapshot s)]

/-- Python attribute assignment `state.provider_comments = parsed.get(k, "")`
is unvalidated; a missing key gives the empty string, a JSON null gives
`None`, a string gives the string.  A payload with a non-string value would
be stored as-is by Python, which the typed embedding cannot represent; no
claim concerns such a payload, and it is modelled as a failure. -/
def readAssignStr (o : Option Json) : Except String (Option String) :=
  match o with
  | none => .ok (some "")
  | some .null => .ok none
  | some (.str s) => .ok (some s)
  | some _ => .error "unvalidated non-string assignment (not modelled)"

/-- The wound list of an extracted payload: `parsed_data.get("wounds", [])`
iterated with `WoundDetails(**w)`; a payload whose `wounds` member is not a
list of valid wound dicts raises. -/
def extractWounds (fs : List (String × Json)) :
    Except String (List WoundDetails) :=
  match objGet fs "wounds" with
  | none => .ok []
  | some (.arr xs) => validateWounds xs
  | some _ => .error "TypeError: wounds payload is not a list"

/-- The structural mutation of create_from_transcript (manager.py lines
142-148, the spec's `applyFull`): wholesale replacement of the wound list,
comments and plan, and the forced transition to `Recording Saved`. -/
def applyFull (s : EncounterState) (ws : List WoundDetails)
    (cm pl : Option String) : EncounterState :=
  { s with wounds := ws, provider_comments := cm, treatment_plan := pl,
           status := AppointmentStatus.recordingSaved }

/-- EncounterManager.create_from_transcript.  The external extractor call
(`parser.parse_transcript`) is nondeterministic, so its outcome is the
parameter `parseOutcome`: `.error` when the LLM call itself raised, `.ok d`
with the returned dict otherwise — NOTE that on unparseable LLM output the
parser returns the dict `{"error": "Failed to parse transcript"}` rather
than raising, and this function does not inspect it. -/
def create_from_transcript (store : Store) (transcript : String)
    (aid : String) (parseOutcome : Except String Json) (now : Int) :
    Except String EncounterState × Store :=
  match load_state store aid with
  | .error e => (.error e, store)
  | .ok state =>
    match parseOutcome with
    | .error e => (.error e, store)
    | .ok parsed =>
      match parsed with
      | .obj pfs =>
        match extractWounds pfs with
        | .error e => (.error e, store)
        | .ok ws =>
          match readAssignStr (objGet pfs "comments") with
          | .error e => (.error e, store)
          | .ok cm =>
            match readAssignStr (objGet pfs "plan") with
            | .error e => (.error e, store)
            | .ok pl =>
              let st1 := applyFull state ws cm pl
              let st2 := { st1 with
                history := st1.history ++ [initialEntry now transcript st1] }
              let (r, store') := save_state store st2 now
              (.ok r, store')
      | _ => (.error "AttributeError: payload is not a dict", store)

/-- EncounterManager.apply_addendum.  The extractor's patch generation is the
parameter `genOutcome`: `.error` when the LLM call raised, `.ok patches`
with the returned operation list otherwise (parser.generate_patch returns
`[]` on unparseable output).  An empty list short-circuits: the loaded state
is returned and nothing is written.  Otherwise the batch is applied to the
FULL `model_dump` of the state, the result re-validated, the version bumped
by one, one addendum entry appended, and the result persisted. -/
def apply_addendum (store : Store) (eid : String) (transcript : String)
    (genOutcome : Except String (List Json)) (now : Int) :
    Except String EncounterState × Store :=
  match load_state store eid with
  | .error e => (.error e, store)
  | .ok state =>
    match genOutcome with
    | .error e => (.error e, store)
    | .ok patches =>
      if patches.isEmpty then (.ok state, store)
      else
        match applyPatchBatch patches (model_dump state) with
        | .error e => (.error e, store)
        | .ok updated_dict =>
          match model_validate updated_dict with
          | .error e => (.error e, store)
          | .ok us0 =>
            let us1 := { us0 with version := us0.version + 1 }
            let us2 := { us1 with
              history := us1.history ++ [addendumEntry now transcript patches us1] }
            let (r, store') := save_state store us2 now
            (.ok r, store')

/-- ClinicalParser.generate_patch's minimized view of the current state: the
dict handed to the extractor prompt holds only patient identity, wounds,
comments and plan, built from the full `model_dump`. -/
def minimizedView (s : EncounterState) : Json :=
  .obj [("patient_info", dumpPatient s.patient_information),
        ("wounds", .arr (s.wounds.map dumpWound)),
        ("comments", optStrJson s.provider_comments),
        ("treatment_plan", optStrJson s.treatment_plan)]

/-- The key list of a JSON object. -/
def jsonKeys : Json → List String
  | .obj fs => fs.map Prod.fst
  | _ => []

/-- Python `int(x)`: integers pass through, booleans become 0/1, numeric
strings are parsed, everything else raises. -/
def pyInt (j : Json) : Except String Int :=
  match j with
  | .num n => .ok n
  | .bool b => .ok (cond b 1 0)
  | .str s =>
    match pyStrToInt s with
    | some n => .ok n
    | none => .error "ValueError: invalid literal for int()"
  | _ => .error "TypeError: int() argument"

/-- The timestamp handling of the version-list loop:
`ts[:16].replace("T", " ") if ts else "—"`.  A falsy value is fine; a truthy
value must be a string (slicing or `.replace` raises on anything else). -/
def tsSliceCheck (o : Option Json) : Except String Unit :=
  match o with
  | none => .ok ()
  | some .null => .ok ()
  | some (.str _) => .ok ()
  | some (.num n) => if n = 0 then .ok () else .error "TypeError: unsliceable timestamp"
  | some (.bool b) => if b then .error "TypeError: unsliceable timestamp" else .ok ()
  | some (.arr xs) => if xs.isEmpty then .ok () else .error "AttributeError: list has no replace"
  | some (.obj ofs) => if ofs.isEmpty then .ok () else .error "TypeError: unsliceable timestamp"

/-- The first loop of render_encounter: derive the version number of every
history entry (`int(v)` of the recorded version; a missing or null version
falls back to position+1, as `dict.get` cannot tell the two apart) and touch
each entry's timestamp.  The display labels are presentation only and are
not modelled beyond their failure effects. -/
def buildVersions (entries : List Json) (idx : Nat) :
    Except String (List Int) :=
  match entries with
  | [] => .ok []
  | e :: rest =>
    match e with
    | .obj fs =>
      match
        (match objGet fs "version" with
         | none => .ok ((idx : Int) + 1)
         | some .null => .ok ((idx : Int) + 1)
         | some jv => pyInt jv : Except String Int) with
      | .error er => .error er
      | .ok v =>
        match tsSliceCheck (objGet fs "timestamp") with
        | .error er => .error er
        | .ok _ =>
          match buildVersions rest (idx + 1) with
          | .error er => .error er
          | .ok vs => .ok (v :: vs)
    | _ => .error "AttributeError: history entry is not a dict"

/-- The reconstruction scan of render_encounter: find the first entry whose
`int(entry.get("version", idx + 1))` equals the requested version.  Here a
stored null version raises (`int(None)`), unlike the first loop, because the
positional default applies only to a missing key. -/
def findMatch (v : Int) (entries : List Json) (idx : Nat) :
    Except String (Option Json) :=
  match entries with
  | [] => .ok none
  | e :: rest =>
    match e with
    | .obj fs =>
      match
        (match objGet fs "version" with
         | none => .ok ((idx : Int) + 1)
         | some jv => pyInt jv : Except String Int) with
      | .error er => .error er
      | .ok ev =>
        if ev = v then .ok (some e) else findMatch v rest (idx + 1)
    | _ => .error "AttributeError: history entry is not a dict"

/-- Apply one matched history entry to the current state (render_encounter
lines 287-295): when the entry carries a snapshot, patient identity, wounds,
comments and plan are overwritten from it (each through its validator, which
raises on malformed data); with or without a snapshot the projected version
is set; history is never touched. -/
def restoreFromEntry (s : EncounterState) (v : Int) (e : Json) :
    Except String EncounterState :=
  match e with
  | .obj fs =>
    match objGet fs "snapshot" with
    | none => .ok { s with version := v }
    | some snap =>
      match snap with
      | .obj sfs =>
        match
          (match objGet sfs "patient_info" with
           | none => .ok s.patient_information
           | some pj => validatePatient pj : Except String PatientInformation) with
        | .error er => .error er
        | .ok p =>
          match
            (match objGet sfs "wounds" with
             | none => .ok []
             | some (.arr xs) => validateWounds xs
             | some _ => .error "TypeError: snapshot wounds is not a list"
             : Except String (List WoundDetails)) with
          | .error er => .error er
          | .ok ws =>
            match readAssignStr (objGet sfs "provider_comments") with
            | .error er => .error er
            | .ok cm =>
              match readAssignStr (objGet sfs "treatment_plan") with
              | .error er => .error er
              | .ok pl =>
                .ok { s with patient_information := p, wounds := ws,
                             provider_comments := cm, treatment_plan := pl,
                             version := v }
      | _ => .error "TypeError: snapshot is not a dict"
  | _ => .error "AttributeError: history entry is not a dict"

/-- EncounterManager.render_encounter, up to the external HTML renderer: the
projected state handed to `renderer.render_html`.  The version list is built
first (its failures abort the call); a requested version equal to the
current one — or no requested version — projects the state unchanged; an
unmatched version is a silent no-op. -/
def render_encounter (store : Store) (eid : String) (version : Option Int) :
    Except String EncounterState :=
  match load_state store eid with
  | .error e => .error e
  | .ok state =>
    match buildVersions state.history 0 with
    | .error e => .error e
    | .ok _ =>
      match version with
      | none => .ok state
      | some v =>
        if v = state.version then .ok state
        else
          match findMatch v state.history 0 with
          | .error e => .error e
          | .ok none => .ok state
          | .ok (some e) => restoreFromEntry state v e

/-- Well-formedness of a patient record's extension map: pydantic stores in
`model_extra` only keys that are not canonical fields or aliases, so a
record produced by validation never carries a canonical key in `extra`. -/
def WFPatient (p : PatientInformation) : Prop :=
  p.extra.all (fun kv => !(patientKeys.contains kv.1)) = true

/-- Well-formedness of a wound record's extension map, as for `WFPatient`. -/
def WFWound (w : WoundDetails) : Prop :=
  w.extra.all (fun kv => !(woundKeys.contains kv.1)) = true

instance (p : PatientInformation) : Decidable (WFPatient p) := by
  unfold WFPatient; infer_instance

instance (w : WoundDetails) : Decidable (WFWound w) := by
  unfold WFWound; infer_instance

lemma decodeOptStr_optStrJson (x : Option String) :
    decodeOptStr (some (optStrJson x)) = .ok x := by cases x <;> rfl

lemma objGet_none_of_all {keys : List String} {fs : List (String × Json)}
    {k : String} (h : fs.all (fun kv => !(keys.contains kv.1)) = true)
    (hk : keys.contains k = true) : objGet fs k = none := by
  induction fs with
  | nil => rfl
  | cons kv rest ih =>
    simp only [List.all_cons, Bool.and_eq_true] at h
    simp only [objGet]
    rw [if_neg, ih h.2]
    intro heq
    rw [heq, hk] at h
    simp at h

/-- Validation inverts dumping on a well-formed patient record: the snapshot
stored in history is bit-identical to the record it was taken from. -/
lemma validatePatient_dumpPatient (p : PatientInformation) (hp : WFPatient p) :
    validatePatient (dumpPatient p) = .ok p := by
  have h1 : objGet p.extra "Patient Name" = none :=
    objGet_none_of_all hp (by decide)
  have h2 : objGet p.extra "DOB" = none :=
    objGet_none_of_all hp (by decide)
  have h3 : objGet p.extra "Date of Service" = none :=
    objGet_none_of_all hp (by decide)
  have h4 : objGet p.extra "Physician/Extender" = none :=
    objGet_none_of_all hp (by decide)
  have h5 : objGet p.extra "Transcriptionist" = none :=
    objGet_none_of_all hp (by decide)
  have h6 : objGet p.extra "Facility" = none :=
    objGet_none_of_all hp (by decide)
  cases p with
  | mk pn db ds ph tr fa extra =>
    simp only [WFPatient] at hp
    simp only [validatePatient, dumpPatient, readOptStr, objGet,
      List.cons_append, List.nil_append, String.reduceEq, if_false, if_true,
      reduceIte, h1, h2, h3, h4, h5, h6, Option.orElse, decodeOptStr_optStrJson,
      List.filter_cons, List.filter_append] at *
    have hfil : List.filter (fun kv => !decide (kv.1 ∈ patientKeys)) extra = extra := by
      refine List.filter_eq_self.mpr ?_
      intro a ha
      have h := List.all_eq_true.mp hp a ha
      simpa using h
    have hbind : ∀ {α β : Type} (x : α) (f : α → Except String β),
        (Except.ok x >>= f) = f x := fun _ _ => rfl
    simp [hbind, patientKeys, hfil]
    intro a b hab
    have h := List.all_eq_true.mp hp (a, b) hab
    simpa [patientKeys] using h

/-- Validation inverts dumping on a well-formed wound record. -/
lemma validateWound_dumpWound (w : WoundDetails) (hw : WFWound w) :
    validateWound (dumpWound w) = .ok w := by
  cases w with
  | mk n f1 f2 f3 f4 f5 f6 f7 f8 f9 f10 f11 f12 f13 f14 f15 f16 f17 f18 f19
      f20 f21 f22 f23 attrs extra =>
    simp only [WFWound] at hw
    simp only [validateWound, dumpWound, readOptStr, objGet,
      List.cons_append, List.nil_append, String.reduceEq, if_false, if_true,
      reduceIte, Option.orElse, decodeOptStr_optStrJson,
      List.filter_cons, List.filter_append]
    have hfil : List.filter (fun kv => !decide (kv.1 ∈ woundKeys)) extra = extra := by
      refine List.filter_eq_self.mpr ?_
      intro a ha
      have h := List.all_eq_true.mp hw a ha
      simpa using h
    have hbind : ∀ {α β : Type} (x : α) (f : α → Except String β),
        (Except.ok x >>= f) = f x := fun _ _ => rfl
    simp [hbind, woundKeys, hfil]
    intro a b hab
    have h := List.all_eq_true.mp hw (a, b) hab
    simpa [woundKeys] using h

/-- Validation inverts dumping on a list of well-formed wound records. -/
lemma validateWounds_map_dump (ws : List WoundDetails)
    (h : ∀ w ∈ ws, WFWound w) :
    validateWounds (ws.map dumpWound) = .ok ws := by
  induction ws with
  | nil => rfl
  | cons w rest ih =>
    simp only [List.map_cons, validateWounds,
      validateWound_dumpWound w (h w (by simp))]
    rw [ih (fun x hx => h x (by simp [hx]))]
    rfl

/-- Unvalidated assignment of a dumped optional string restores the value. -/
lemma readAssignStr_optStrJson (x : Option String) :
    readAssignStr (some (optStrJson x)) = .ok x := by cases x <;> rfl

/-! Concrete sample data used by the witnesses and counterexamples below.
`s1` is an encounter as the system itself would produce it: one wound, one
`initial_dictation` history entry carrying the snapshot of the state it
recorded. -/

/-- Sample wound. -/
def w1 : WoundDetails := { number := "1", location := some "heel" }

/-- The structural fields of the sample encounter, before its history entry
is attached. -/
def s1base : EncounterState :=
  { appointment_id := "a1", encounter_id := "e1",
    status := .recordingSaved, version := 1, created_at := 0, updated_at := 0,
    wounds := [w1], provider_comments := some "c", treatment_plan := some "p",
    history := [] }

/-- Sample encounter at version 1 with one initial-dictation history entry. -/
def s1 : EncounterState :=
  { s1base with history := [initialEntry 0 "t0" s1base] }

/-- Sample store holding `s1` under its appointment id. -/
def store1 : Store := [("a1", s1)]

/-- A benign structural patch: replace the provider comments. -/
def commentPatch : Json :=
  .obj [("op", .str "replace"), ("path", .str "/provider_comments"),
        ("value", .str "c2")]

/-- Success test for an `Except` outcome. -/
def isOkE {α : Type} : Except String α → Bool
  | .ok _ => true
  | .error _ => false

/-- Sample second wound as the extractor would return it. -/
def w2 : WoundDetails := { number := "2" }

/-- A sample extracted initial payload: one wound, comments, plan. -/
def payloadFields : List (String × Json) :=
  [("wounds", .arr [.obj [("number", .str "2")]]),
   ("comments", .str "cc"), ("plan", .str "pp")]

/-- A patch that rewrites the version counter itself. -/
def versionPatch : Json :=
  .obj [("op", .str "replace"), ("path", .str "/version"), ("value", .num 41)]

/-- A patch that deletes the first history entry. -/
def histPatch : Json :=
  .obj [("op", .str "remove"), ("path", .str "/history/0")]

/-- A patch that rewrites the lifecycle status. -/
def statusPatch : Json :=
  .obj [("op", .str "replace"), ("path", .str "/status"),
        ("value", .str "Delivered")]

/-- A failing test operation (the stored version is 1, not 99). -/
def testPatch : Json :=
  .obj [("op", .str "test"), ("path", .str "/version"), ("value", .num 99)]

/-- The dict parser.parse_transcript returns when the extractor's output
cannot be parsed (parser.py line 111). -/
def parserErrDict : Json := .obj [("error", .str "Failed to parse transcript")]

/-- A store holding one freshly booked appointment. -/
def storeB : Store := (create_appointment [] {} "b1" "be1" 3).2

/-- The booked appointment held by `storeB`. -/
def sB : EncounterState := (create_appointment [] {} "b1" "be1" 3).1

/-- The store after a successful comment-replacing addendum on `store1`. -/
def store2 : Store :=
  (apply_addendum store1 "a1" "add" (.ok [commentPatch]) 5).2

/-- The encounter produced by that addendum (version 2, two history
entries). -/
def s2 : EncounterState :=
  match (apply_addendum store1 "a1" "add" (.ok [commentPatch]) 5).1 with
  | .ok r => r
  | .error _ => s1

/-- C3: an addendum whose extracted patch list is empty returns the loaded
encounter unchanged — same version, wounds, comments, plan and history — no
history entry is appended and nothing is persisted (the store is exactly the
store before the call). -/
theorem apply_addendum_empty_patch_noop (store : Store) (eid t : String)
    (now : Int) (s : EncounterState) (h : storeGet store eid = some s) :
    apply_addendum store eid t (.ok []) now = (.ok s, store) := by
  simp [apply_addendum, load_state, h]

/-- Witness for C3 at a concrete store. -/
theorem apply_addendum_empty_patch_noop_witness :
    apply_addendum store1 "a1" "t" (.ok []) 5 = (.ok s1, store1) :=
  apply_addendum_empty_patch_noop store1 "a1" "t" 5 s1 (by rfl)

/-- C2: a successful initial dictation leaves the version unchanged,
replaces the wound list wholesale with the extracted wounds, sets status to
Recording Saved, and appends exactly one history entry of kind
`initial_dictation` tagged with the (unchanged) current version; the result
is persisted under the encounter's id. -/
theorem create_from_transcript_success_effects
    (store : Store) (t aid : String) (now : Int) (s : EncounterState)
    (pfs : List (String × Json)) (ws : List WoundDetails) (cm pl : Option String)
    (h : storeGet store aid = some s)
    (hw : extractWounds pfs = .ok ws)
    (hc : readAssignStr (objGet pfs "comments") = .ok cm)
    (hl : readAssignStr (objGet pfs "plan") = .ok pl) :
    ∃ r, r = { applyFull s ws cm pl with
          history := (applyFull s ws cm pl).history ++
            [initialEntry now t (applyFull s ws cm pl)],
          updated_at := now }
      ∧ create_from_transcript store t aid (.ok (.obj pfs)) now
          = (.ok r, storePut store s.appointment_id r)
      ∧ r.version = s.version
      ∧ r.wounds = ws
      ∧ r.status = .recordingSaved
      ∧ r.history = s.history ++ [initialEntry now t (applyFull s ws cm pl)]
      ∧ (∃ efs, initialEntry now t (applyFull s ws cm pl) = .obj efs
          ∧ objGet efs "type" = some (.str "initial_dictation")
          ∧ objGet efs "version" = some (.num s.version)) := by
  cases s with
  | mk said seid sst sver sca sua spi swd spc stp shist =>
    refine ⟨_, rfl, ?_, rfl, rfl, rfl, rfl, ⟨_, rfl, rfl, rfl⟩⟩
    simp [create_from_transcript, load_state, h, hw, hc, hl, save_state,
      applyFull, storePut]

/-- Witness for C2: dictating a one-wound payload over `s1`. -/
theorem create_from_transcript_success_effects_witness :
    ∃ r, r = { applyFull s1 [w2] (some "cc") (some "pp") with
          history := (applyFull s1 [w2] (some "cc") (some "pp")).history ++
            [initialEntry 7 "t1" (applyFull s1 [w2] (some "cc") (some "pp"))],
          updated_at := 7 }
      ∧ create_from_transcript store1 "t1" "a1" (.ok (.obj payloadFields)) 7
          = (.ok r, storePut store1 s1.appointment_id r)
      ∧ r.version = s1.version
      ∧ r.wounds = [w2]
      ∧ r.status = .recordingSaved
      ∧ r.history = s1.history ++
          [initialEntry 7 "t1" (applyFull s1 [w2] (some "cc") (some "pp"))]
      ∧ (∃ efs, initialEntry 7 "t1" (applyFull s1 [w2] (some "cc") (some "pp"))
            = .obj efs
          ∧ objGet efs "type" = some (.str "initial_dictation")
          ∧ objGet efs "version" = some (.num s1.version)) :=
  create_from_transcript_success_effects store1 "t1" "a1" 7 s1 payloadFields
    [w2] (some "cc") (some "pp") (by rfl) (by rfl) (by rfl) (by rfl)

/-- C1 counterexample: a successful addendum whose patch rewrites `/version`
yields a version (42) different from the loaded version plus one (2), so
"version_after == version_before + 1" does not hold for every successful
application. -/
theorem apply_addendum_version_counterexample :
    storeGet store1 "a1" = some s1 ∧ s1.version = 1
  ∧ ∃ r, (apply_addendum store1 "a1" "x" (.ok [versionPatch]) 5).1 = .ok r
      ∧ r.version = 42 ∧ ¬ r.version = s1.version + 1 :=
  ⟨rfl, rfl, _, rfl, rfl, by decide⟩

/-- C1 amended: a successful addendum bumps the version of the
patched-and-revalidated state by exactly one — which equals the loaded
version plus one whenever the patch leaves the version field alone — and
appends exactly one entry to the patched state's history, of kind
`addendum`, tagged with the new version, carrying the literal operations and
the full post-mutation snapshot; the result is persisted. -/
theorem apply_addendum_success_effects
    (store : Store) (eid t : String) (now : Int) (s u : EncounterState)
    (ps : List Json) (j : Json)
    (h : storeGet store eid = some s)
    (hne : ¬ ps = [])
    (hap : applyPatchBatch ps (model_dump s) = .ok j)
    (hv : model_validate j = .ok u) :
    ∃ r, r = { u with
          version := u.version + 1,
          history := u.history ++
            [addendumEntry now t ps { u with version := u.version + 1 }],
          updated_at := now }
      ∧ apply_addendum store eid t (.ok ps) now
          = (.ok r, storePut store u.appointment_id r)
      ∧ r.version = u.version + 1
      ∧ (u.version = s.version → r.version = s.version + 1)
      ∧ r.history = u.history ++
          [addendumEntry now t ps { u with version := u.version + 1 }]
      ∧ (∃ efs, addendumEntry now t ps { u with version := u.version + 1 }
            = .obj efs
          ∧ objGet efs "type" = some (.str "addendum")
          ∧ objGet efs "version" = some (.num (u.version + 1))
          ∧ objGet efs "patches" = some (.arr ps)
          ∧ objGet efs "snapshot"
              = some (dumpSnapshot { u with version := u.version + 1 })) := by
  have hemp : ps.isEmpty = false := by
    cases ps with
    | nil => exact absurd rfl hne
    | cons a l => rfl
  cases u with
  | mk uaid ueid ust uver uca uua upi uwd upc utp uhist =>
    refine ⟨_, rfl, ?_, rfl, ?_, rfl, ⟨_, rfl, rfl, rfl, rfl, rfl⟩⟩
    · simp [apply_addendum, load_state, h, hemp, hap, hv, save_state, storePut]
    · intro hu
      simp at hu
      simp [hu]

/-- The re-validated state after `commentPatch` is applied to the dump of
`s1`: identical to `s1` except for the replaced comments. -/
def s1cPatched : EncounterState := { s1 with provider_comments := some "c2" }

/-- Witness for the amended C1: the comment-replacing addendum on `store1`. -/
theorem apply_addendum_success_effects_witness :
    ∃ r, r = { s1cPatched with
          version := s1cPatched.version + 1,
          history := s1cPatched.history ++
            [addendumEntry 5 "add" [commentPatch]
              { s1cPatched with version := s1cPatched.version + 1 }],
          updated_at := 5 }
      ∧ apply_addendum store1 "a1" "add" (.ok [commentPatch]) 5
          = (.ok r, storePut store1 s1cPatched.appointment_id r)
      ∧ r.version = s1cPatched.version + 1
      ∧ (s1cPatched.version = s1.version → r.version = s1.version + 1)
      ∧ r.history = s1cPatched.history ++
          [addendumEntry 5 "add" [commentPatch]
            { s1cPatched with version := s1cPatched.version + 1 }]
      ∧ (∃ efs, addendumEntry 5 "add" [commentPatch]
            { s1cPatched with version := s1cPatched.version + 1 } = .obj efs
          ∧ objGet efs "type" = some (.str "addendum")
          ∧ objGet efs "version" = some (.num (s1cPatched.version + 1))
          ∧ objGet efs "patches" = some (.arr [commentPatch])
          ∧ objGet efs "snapshot"
              = some (dumpSnapshot
                  { s1cPatched with version := s1cPatched.version + 1 })) :=
  apply_addendum_success_effects store1 "a1" "add" 5 s1 s1cPatched
    [commentPatch] (model_dump s1cPatched) (by rfl) (by decide) (by rfl) (by rfl)

/-- C4: for a non-empty batch, if any operation fails or the post-apply
re-validation fails, the whole call fails and the store is exactly the store
before the call — nothing is partially applied or partially written. -/
theorem apply_addendum_atomic_on_failure
    (store : Store) (eid t : String) (now : Int) (s : EncounterState)
    (ps : List Json)
    (h : storeGet store eid = some s)
    (hne : ¬ ps = [])
    (hfail : isOkE (applyPatchBatch ps (model_dump s)) = false
      ∨ ∃ j, applyPatchBatch ps (model_dump s) = .ok j
           ∧ isOkE (model_validate j) = false) :
    isOkE (apply_addendum store eid t (.ok ps) now).1 = false
  ∧ (apply_addendum store eid t (.ok ps) now).2 = store := by
  have hemp : ps.isEmpty = false := by
    cases ps with
    | nil => exact absurd rfl hne
    | cons a l => rfl
  rcases hfail with hf | ⟨j, hj, hvf⟩
  · cases hb : applyPatchBatch ps (model_dump s) with
    | ok j => rw [hb] at hf; simp [isOkE] at hf
    | error e =>
      constructor <;> simp [apply_addendum, load_state, h, hemp, hb, isOkE]
  · cases hv : model_validate j with
    | ok v => rw [hv] at hvf; simp [isOkE] at hvf
    | error e =>
      constructor <;>
        simp [apply_addendum, load_state, h, hemp, hj, hv, isOkE]

/-- Witness for C4: a batch whose first operation is a failing `test`. -/
theorem apply_addendum_atomic_on_failure_witness :
    isOkE (apply_addendum store1 "a1" "x"
      (.ok [testPatch, commentPatch]) 5).1 = false
  ∧ (apply_addendum store1 "a1" "x" (.ok [testPatch, commentPatch]) 5).2
      = store1 :=
  apply_addendum_atomic_on_failure store1 "a1" "x" 5 s1
    [testPatch, commentPatch] (by rfl) (by decide) (Or.inl (by rfl))

/-- C5 counterexample: patches are applied to the full serialized encounter,
not to a history-free structural view — a `remove /history/0` operation is
accepted and the original history entry is gone from the successful
result. -/
theorem apply_addendum_patch_reaches_history :
    s1.history = [initialEntry 0 "t0" s1base]
  ∧ ∃ r, (apply_addendum store1 "a1" "x" (.ok [histPatch]) 5).1 = .ok r
      ∧ ¬ initialEntry 0 "t0" s1base ∈ r.history :=
  ⟨rfl, _, rfl, by decide⟩

/-- C5 amended: the minimized structural view (patient identity, wounds,
comments, plan — history excluded) is only the extractor's prompt input;
patch application itself operates on the full dump, so operations can reach
non-structural fields — concretely, a status-rewriting patch is applied
successfully. -/
theorem minimized_view_structural_only :
    (∀ s : EncounterState,
       jsonKeys (minimizedView s)
         = ["patient_info", "wounds", "comments", "treatment_plan"]
       ∧ ¬ "history" ∈ jsonKeys (minimizedView s))
  ∧ (∃ r, (apply_addendum store1 "a1" "x" (.ok [statusPatch]) 5).1 = .ok r
       ∧ r.status = .delivered ∧ s1.status = .recordingSaved) :=
  ⟨fun s => ⟨rfl, by simp [jsonKeys, minimizedView]⟩, _, rfl, rfl, rfl⟩

/-- C7 evidence: when the extractor's output is unparseable the parser
returns `{"error": ...}` instead of raising, and create_from_transcript
proceeds — it succeeds, wipes the wound list, and persists the mutation, so
the stored encounter does not remain at its previous state. -/
theorem create_from_transcript_swallows_extraction_failure :
    storeGet store1 "a1" = some s1 ∧ s1.wounds = [w1]
  ∧ ∃ r, (create_from_transcript store1 "t1" "a1" (.ok parserErrDict) 7).1
        = .ok r
      ∧ r.wounds = []
      ∧ r.status = .recordingSaved
      ∧ (create_from_transcript store1 "t1" "a1" (.ok parserErrDict) 7).2
          = storePut store1 "a1" r
      ∧ ¬ storeGet
            ((create_from_transcript store1 "t1" "a1" (.ok parserErrDict) 7).2)
            "a1" = some s1 :=
  ⟨rfl, rfl, _, rfl, rfl, rfl, rfl, by decide⟩

lemma storeGet_storeDel (store : Store) (aid : String) :
    storeGet (storeDel store aid) aid = none := by
  induction store with
  | nil => rfl
  | cons kv rest ih =>
    by_cases hk : kv.1 = aid
    · simpa [storeDel, List.filter_cons, hk] using ih
    · simpa [storeDel, List.filter_cons, hk, storeGet] using ih

lemma mem_storePut {loc : Store} {k : String} {s : EncounterState}
    {kv : String × EncounterState} (h : kv ∈ storePut loc k s) :
    kv ∈ loc ∨ kv = (k, s) := by
  induction loc with
  | nil =>
    simp only [storePut, List.mem_singleton] at h
    exact Or.inr h
  | cons p rest ih =>
    obtain ⟨pk, pt⟩ := p
    simp only [storePut] at h
    by_cases hk : pk = k
    · rw [if_pos hk] at h
      rcases List.mem_cons.mp h with h1 | h1
      · exact Or.inr (by rw [h1, hk])
      · exact Or.inl (List.mem_cons_of_mem _ h1)
    · rw [if_neg hk] at h
      rcases List.mem_cons.mp h with h1 | h1
      · exact Or.inl (h1 ▸ List.mem_cons_self _ _)
      · rcases ih h1 with h2 | h2
        · exact Or.inl (List.mem_cons_of_mem _ h2)
        · exact Or.inr h2

lemma mem_syncChart {chart loc : Store} {kv : String × EncounterState}
    (h : kv ∈ Tiered.syncChart loc chart) : kv ∈ loc ∨ kv ∈ chart := by
  induction chart generalizing loc with
  | nil => exact Or.inl h
  | cons p rest ih =>
    obtain ⟨pk, ps⟩ := p
    simp only [Tiered.syncChart] at h
    by_cases hg : storeGet loc pk = none
    · rw [if_pos hg] at h
      rcases ih h with h1 | h1
      · rcases mem_storePut h1 with h2 | h2
        · exact Or.inl h2
        · exact Or.inr (h2 ▸ List.mem_cons_self _ _)
      · exact Or.inr (List.mem_cons_of_mem _ h1)
    · rw [if_neg hg] at h
      rcases ih h with h1 | h1
      · exact Or.inl h1
      · exact Or.inr (List.mem_cons_of_mem _ h1)

lemma key_ne_of_storeGet_none {chart : Store} {aid : String}
    (h : storeGet chart aid = none) :
    ∀ kv ∈ chart, ¬ kv.1 = aid := by
  induction chart with
  | nil => intro kv hkv; cases hkv
  | cons p rest ih =>
    obtain ⟨pk, ps⟩ := p
    intro kv hkv
    simp only [storeGet] at h
    by_cases hp : pk = aid
    · rw [if_pos hp] at h; cases h
    · rw [if_neg hp] at h
      rcases List.mem_cons.mp hkv with h1 | h1
      · rw [h1]; exact hp
      · exact ih h kv h1

/-- Tiered sample store: the booked appointment, mirrored in S3 exactly as
save_state leaves it after create_appointment uploads the chart object. -/
def tsBmirror : TieredStore := { localDir := storeB, s3chart := some storeB }

/-- Tiered sample store: the booked appointment with no S3 tier configured. -/
def tsBlocal : TieredStore := { localDir := storeB, s3chart := none }

/-- Tiered sample store: the dictated encounter `s1`, mirrored in S3. -/
def tsA : TieredStore := { localDir := store1, s3chart := some store1 }

/-- C8 counterexample: with an S3 mirror configured, deleting a Booked
encounter succeeds and removes the local file, but the chart object is
never deleted — the next list() re-syncs it, so the encounter still appears
in subsequent list() results and is still retrievable. -/
theorem delete_appointment_s3_resurrection :
    sB.status = .booked
  ∧ (Tiered.delete_appointment tsBmirror "b1").1 = .ok ()
  ∧ storeGet ((Tiered.delete_appointment tsBmirror "b1").2).localDir "b1"
      = none
  ∧ sB ∈ (Tiered.list_appointments
        (Tiered.delete_appointment tsBmirror "b1").2).1
  ∧ (Tiered.load_state (Tiered.delete_appointment tsBmirror "b1").2 "b1").1
      = .ok sB :=
  ⟨rfl, rfl, rfl, by decide, rfl⟩

/-- C8 amended: deletion succeeds exactly while status is Booked and removes
the local record — the S3 chart object is never deleted, so the encounter
disappears from subsequent list() results only when no configured mirror
holds its chart object; on any other status the call fails with the
conflict error and the record is untouched and still retrievable.  The
filed-under-own-id hypotheses are store invariants: every write path, local
or S3, files a state under `state.appointment_id`. -/
theorem delete_appointment_only_booked
    (ts : TieredStore) (aid : String) (s : EncounterState)
    (hkeys : ∀ kv ∈ ts.localDir, kv.1 = kv.2.appointment_id)
    (hkeys2 : ∀ kv ∈ ts.s3chart.getD [], kv.1 = kv.2.appointment_id)
    (h : storeGet ts.localDir aid = some s) :
    (s.status = .booked →
       Tiered.delete_appointment ts aid
         = (.ok (), { ts with localDir := storeDel ts.localDir aid })
       ∧ ((Tiered.delete_appointment ts aid).2).s3chart = ts.s3chart
       ∧ storeGet (storeDel ts.localDir aid) aid = none
       ∧ (storeGet (ts.s3chart.getD []) aid = none →
            ∀ x ∈ (Tiered.list_appointments
                { ts with localDir := storeDel ts.localDir aid }).1,
              ¬ x.appointment_id = aid))
  ∧ (¬ s.status = .booked →
       Tiered.delete_appointment ts aid
         = (.error "ValueError: cannot delete once a clinical record exists",
            ts)
       ∧ (Tiered.load_state ts aid).1 = .ok s) := by
  have hload : Tiered.load_state ts aid = (.ok s, ts) := by
    simp [Tiered.load_state, h]
  constructor
  · intro hb
    have heq : Tiered.delete_appointment ts aid
        = (.ok (), { ts with localDir := storeDel ts.localDir aid }) := by
      simp [Tiered.delete_appointment, hload, hb]
    refine ⟨heq, by rw [heq], storeGet_storeDel ts.localDir aid, ?_⟩
    intro hmir x hx hxa
    have hmem : ∀ kv : String × EncounterState,
        kv ∈ storeDel ts.localDir aid → ¬ kv.1 = aid := by
      intro kv hkv
      have h2 := List.mem_filter.mp hkv
      simpa using h2.2
    have hloc : ∀ kv : String × EncounterState,
        kv ∈ storeDel ts.localDir aid → kv.1 = kv.2.appointment_id :=
      fun kv hkv => hkeys kv (List.mem_filter.mp hkv).1
    cases hchart : ts.s3chart with
    | none =>
      simp only [Tiered.list_appointments, hchart] at hx
      have hx' : x ∈ (storeDel ts.localDir aid).map Prod.snd :=
        ((List.perm_insertionSort createdDesc
          ((storeDel ts.localDir aid).map Prod.snd)).mem_iff).mp hx
      obtain ⟨kv, hkv, rfl⟩ := List.mem_map.mp hx'
      exact hmem kv hkv ((hloc kv hkv).trans hxa)
    | some chart =>
      rw [hchart] at hmir
      simp only [Option.getD] at hmir
      simp only [Tiered.list_appointments, hchart] at hx
      have hx' : x ∈ (Tiered.syncChart (storeDel ts.localDir aid) chart).map
          Prod.snd :=
        ((List.perm_insertionSort createdDesc _).mem_iff).mp hx
      obtain ⟨kv, hkv, rfl⟩ := List.mem_map.mp hx'
      rcases mem_syncChart hkv with h1 | h1
      · exact hmem kv h1 ((hloc kv h1).trans hxa)
      · have hk2 : kv.1 = kv.2.appointment_id := by
          have := hkeys2 kv
          rw [hchart] at this
          exact this h1
        exact key_ne_of_storeGet_none hmir kv h1 (hk2.trans hxa)
  · intro hnb
    have heq : Tiered.delete_appointment ts aid
        = (.error "ValueError: cannot delete once a clinical record exists",
           ts) := by
      simp [Tiered.delete_appointment, hload, hnb]
    exact ⟨heq, by rw [hload]⟩

/-- Witness for the amended C8: deleting the booked appointment with no
mirror configured succeeds (and it is gone from the local tier); deleting
the dictated `s1` fails and leaves both tiers as they were, the record
still loadable. -/
theorem delete_appointment_only_booked_witness :
    (Tiered.delete_appointment tsBlocal "b1"
       = (.ok (), { tsBlocal with localDir := storeDel storeB "b1" })
     ∧ storeGet (storeDel storeB "b1") "b1" = none)
  ∧ (Tiered.delete_appointment tsA "a1"
       = (.error "ValueError: cannot delete once a clinical record exists",
          tsA)
     ∧ (Tiered.load_state tsA "a1").1 = .ok s1) :=
  ⟨⟨((delete_appointment_only_booked tsBlocal "b1" sB (by decide) (by decide)
        rfl).1 rfl).1,
    ((delete_appointment_only_booked tsBlocal "b1" sB (by decide) (by decide)
        rfl).1 rfl).2.2.1⟩,
   (delete_appointment_only_booked tsA "a1" s1 (by decide) (by decide)
      rfl).2 (by decide)⟩

/-- C10: initial dictation has no status precondition — for any stored
encounter, whatever its status, it succeeds, replaces the wounds, forces the
status back to Recording Saved, and appends another `initial_dictation`
entry tagged with the current, un-incremented version; consequently (second
conjunct) dictating twice leaves two history entries recording the same
version number 1, so history versions are neither unique nor strictly
increasing. -/
theorem create_from_transcript_no_status_precondition :
    (∀ (store : Store) (t aid : String) (now : Int) (s : EncounterState)
       (pfs : List (String × Json)) (ws : List WoundDetails)
       (cm pl : Option String),
       storeGet store aid = some s →
       extractWounds pfs = .ok ws →
       readAssignStr (objGet pfs "comments") = .ok cm →
       readAssignStr (objGet pfs "plan") = .ok pl →
       ∃ r, r = { applyFull s ws cm pl with
             history := (applyFull s ws cm pl).history ++
               [initialEntry now t (applyFull s ws cm pl)],
             updated_at := now }
         ∧ (create_from_transcript store t aid (.ok (.obj pfs)) now).1 = .ok r
         ∧ r.status = .recordingSaved
         ∧ r.version = s.version
         ∧ r.history = s.history ++ [initialEntry now t (applyFull s ws cm pl)])
  ∧ (∃ r2, (create_from_transcript
        (create_from_transcript storeB "t1" "b1" (.ok (.obj payloadFields)) 7).2
        "t2" "b1" (.ok (.obj payloadFields)) 9).1 = .ok r2
      ∧ r2.history.length = 2
      ∧ (buildVersions r2.history 0).toOption = some [1, 1]) := by
  constructor
  · intro store t aid now s pfs ws cm pl h hw hc hl
    cases s with
    | mk said seid sst sver sca sua spi swd spc stp shist =>
      refine ⟨_, rfl, ?_, rfl, rfl, rfl⟩
      simp [create_from_transcript, load_state, h, hw, hc, hl, save_state,
        applyFull]
  · exact ⟨_, rfl, by decide, by decide⟩

/-- Witness for C10: re-dictating over the already-dictated `s1`
(status Recording Saved) succeeds. -/
theorem create_from_transcript_no_status_precondition_witness :
    ∃ r, r = { applyFull s1 [w2] (some "cc") (some "pp") with
          history := (applyFull s1 [w2] (some "cc") (some "pp")).history ++
            [initialEntry 7 "t1" (applyFull s1 [w2] (some "cc") (some "pp"))],
          updated_at := 7 }
      ∧ (create_from_transcript store1 "t1" "a1"
          (.ok (.obj payloadFields)) 7).1 = .ok r
      ∧ r.status = .recordingSaved
      ∧ r.version = s1.version
      ∧ r.history = s1.history ++
          [initialEntry 7 "t1" (applyFull s1 [w2] (some "cc") (some "pp"))] :=
  create_from_transcript_no_status_precondition.1 store1 "t1" "a1" 7 s1
    payloadFields [w2] (some "cc") (some "pp") (by rfl) (by rfl) (by rfl) (by rfl)

/-- C6: version reconstruction is a read-side projection.  With a loadable
encounter whose version list builds: requesting no version, or the current
version, projects the state unchanged; a version matching no history entry
is a silent no-op; a version whose first matching entry carries a stored
snapshot overwrites exactly patient identity, wounds, comments and plan with
the snapshot's fields — bit-identical to the state the snapshot was taken
from — sets the projected version, and leaves history itself untouched. -/
theorem render_encounter_reconstruction
    (store : Store) (eid : String) (s : EncounterState) (vs : List Int)
    (h : storeGet store eid = some s)
    (hb : buildVersions s.history 0 = .ok vs) :
    render_encounter store eid none = .ok s
  ∧ render_encounter store eid (some s.version) = .ok s
  ∧ (∀ v, ¬ v = s.version → findMatch v s.history 0 = .ok none →
       render_encounter store eid (some v) = .ok s)
  ∧ (∀ v u efs, ¬ v = s.version →
       findMatch v s.history 0 = .ok (some (.obj efs)) →
       objGet efs "snapshot" = some (dumpSnapshot u) →
       WFPatient u.patient_information →
       (∀ w ∈ u.wounds, WFWound w) →
       render_encounter store eid (some v)
         = .ok { s with
             patient_information := u.patient_information,
             wounds := u.wounds,
             provider_comments := u.provider_comments,
             treatment_plan := u.treatment_plan,
             version := v }) := by
  refine ⟨?_, ?_, ?_, ?_⟩
  · simp [render_encounter, load_state, h, hb]
  · simp [render_encounter, load_state, h, hb]
  · intro v hv hf
    simp [render_encounter, load_state, h, hb, hv, hf]
  · intro v u efs hv hf hsnap hwp hww
    simp only [render_encounter, load_state, h, hb, hv, if_neg hv, hf]
    simp only [restoreFromEntry, hsnap, dumpSnapshot]
    simp only [objGet, String.reduceEq, reduceIte, if_true, if_false]
    simp [validatePatient_dumpPatient u.patient_information hwp,
      validateWounds_map_dump u.wounds hww, readAssignStr_optStrJson]

/-- Witness for C6: in the two-version store `store2`, reconstructing
version 1 restores the structural fields recorded by the initial dictation
while the current version is 2. -/
theorem render_encounter_reconstruction_witness :
    render_encounter store2 "a1" (some 1)
      = .ok { s2 with
          patient_information := s1base.patient_information,
          wounds := s1base.wounds,
          provider_comments := s1base.provider_comments,
          treatment_plan := s1base.treatment_plan,
          version := 1 } :=
  (render_encounter_reconstruction store2 "a1" s2 [1, 2] rfl rfl).2.2.2 1
    s1base
    [("timestamp", .str "0"), ("type", .str "initial_dictation"),
     ("transcript", .str "t0"), ("version", .num 1),
     ("snapshot", dumpSnapshot s1base)]
    (by decide) rfl rfl (by decide) (by decide)

end WoundCare
